import Mathlib

/-!
A verification development for the Viral Script Generator application
(`app.py`).  The session-state driven functions of the source are embedded
as pure Lean functions: Streamlit session state is passed explicitly, the
Supabase table is a list of rows, and the Anthropic transport is a
parameter returning either a text or an error.
-/

set_option maxRecDepth 8192
set_option maxHeartbeats 1000000

/-- A dynamic (user-submitted) knowledge source row, as stored in the
`knowledge_sources` table and mirrored in session state.  Fields read with
`dict.get` in the source (`extracted_advice`, `active`) are `Option`s so a
missing key is representable; `name` and `url` are indexed directly. -/
structure DynSource where
  name : String
  url : String
  extracted_advice : Option String := none
  active : Option Bool := none
  transcript_words : Option Nat := none
  id : Option Nat := none
deriving DecidableEq

/-- A record of the static BUILT_IN_KNOWLEDGE registry of app.py. -/
structure BuiltinRecord where
  name : String
  source : String
  active : Bool
  principles : List String
  full_text : Option String := none
deriving DecidableEq

/-- A record of the STORY_STRUCTURES table of app.py. -/
structure StoryStructure where
  beats : List String
  best_for : String
  hooks : List String
deriving DecidableEq

/-- The VIRAL_PLAYBOOK constant of app.py (lines 151-361). -/
def VIRAL_PLAYBOOK : String :=
  "\n# THE VIRAL VIDEO PLAYBOOK\nA Master Guide to Scripting, Hooking, and Retaining Viewers\nSynthesized from 9 creator masterclasses: MrBeast, Kallaway, Ed from Film Booth, Jon Dorman\nCompiled for The Aesthetic City\n\n## 1. FOUNDATIONAL MINDSET\n\n### The Algorithm Is the Audience\nReplace \"algorithm\" with \"audience\" — the sentence still works. If people are clicking and watching, the video gets promoted. Period.\n\n### Quality Over Quantity\nOne killer video outperforms ten average ones. The video with 30M views didn't require 30x the effort — maybe 2-3x, with a much better idea.\n\n### Content Psychology = Expectations vs Reality\nWhen reality beats expectations, people stay. When expectations beat reality, they leave. Your title sets expectation, intro confirms it, body exceeds it.\n\n## 2. IDEATION & PACKAGING\n\n### The Interestingness Filter (Kallaway)\nScore every fact 1-100 on \"shock value\" (distance between what they know and what you tell them). Only build videos around facts scoring 70+.\n\n### The Friction Test (Film Booth)\nIf an idea practically writes itself, it will work. If you're forcing it, put it on the back burner.\n\n### Dorman's Three Questions (Educational Content)\n1. What do you want the viewer to DO?\n2. What do they need to FEEL to take that action?\n3. What do they need to KNOW?\n\n### Title Principles\n- Keep under 50 characters (truncation on mobile)\n- Make it so interesting they'd wonder about it before bed\n- More extreme = higher CTR, but you MUST deliver on the extremity\n\n### Thumbnail Philosophy\n- Viewer must instantly understand what you're conveying AND feel emotion\n- Title creates interest, thumbnail creates intrigue (don't restate the title)\n- Close your eyes, envision yourself about to click — what does it look like?\n\n## 3. THE HOOK (First 5 Seconds)\n\n### Kallaway's 3-Step Hook Formula\n1. **Context Lean**: Clarify the topic + get viewer leaning in (common ground, benefit, metaphor, or mind-blowing fact)\n2. **Scroll-Stop Interjection**: Single stun-gun line using \"but,\" \"however,\" \"yet\" — reverses the lean\n3. **Contrarian Snapback**: Opposite direction of initial lean. Bigger shock = stronger hook.\n\n**Example (8M views):**\n- Context lean: \"The tech in the Vegas Sphere is insane. Biggest screen ever, 20x bigger than IMAX.\"\n- Scroll-stop: \"But get this, the screen is actually the least impressive part.\"\n- Snapback: \"Because the most impressive part is the audio. This is going to blow your mind.\"\n\n### The Nine Hook Formats\n1. **Secret Reveal** - Teases unknown insight. Best for news, tips.\n2. **Case Study** - Brand/person that achieved unexpected result.\n3. **Comparison** - Optimal vs suboptimal creates instant contrast.\n4. **Question** - Plants curiosity question directly.\n5. **Education** - Step-by-step process preview.\n6. **List** - Ordered set of items.\n7. **Contrarian** - Bold against-the-grain take in first sentence.\n8. **Personal Experience** - First-person story setup.\n9. **Problem** - Agitates pain point to set up solution.\n\n### Four Hook Commandments\n1. **Alignment**: Visual hook, spoken hook, text-on-screen must match\n2. **Speed to Value**: Zero delay, zero fluff\n3. **Clarity**: Topic must be unmistakable\n4. **Curiosity**: Must open a question in viewer's mind\n\n### Visual Hooks\nEyes perceive faster than ears process. 3-5 bold words on screen + compelling visual = 10x more powerful than spoken-word alone.\n\n### Staccato in the Hook\nShort. Punchy. Compress sentences in the hook. Expand into longer sentences after the hook for rhythm variety.\n\n## 4. THE INTRO (First 60 Seconds)\n\n### Click Confirmation\nFirst lines must CONFIRM and ideally BEAT expectations set by title. Fail to confirm = viewers bounce feeling misled.\n\n### The Five-Part Intro Framework\n1. **Context**: State what the video is about. Click-confirm immediately.\n2. **Relevance/Stakes**: Why this maps to their problem. Amplify stakes.\n3. **Contrast**: Their common belief vs your contrarian approach.\n4. **Proof**: Credentials/results that validate your claim.\n5. **Plan**: Preview structure. \"These are the five steps...\"\n\n### The Trust Ladder (First 3 Minutes)\n1. **Crowd Verification**: High sub/view count (social proof)\n2. **Proof Signaling**: State your results early\n3. **First Dopamine Hit (~60 sec)**: Race to deliver first non-obvious value\n4. **Second Dopamine Hit**: Two golden nuggets = pattern. They're hooked.\n\n### Speed to List Rule\nStart your first point within 55 seconds. Delay beyond = significantly fewer stay.\n\n### Time Allocation\nSpend 50%+ of working time on idea, title, packaging, and first 2 minutes. Intro = \"beachfront property.\" Outro = \"rural farmland.\"\n\n## 5. THE BODY (Sustaining Attention)\n\n### Story Structures\n- **Breakdown**: Complex concepts in building blocks (Secret Reveal, Question, Contrarian)\n- **Newscaster**: Factual recounting (Secret Reveal, Question, Problem)\n- **Case Study**: Frameworks that achieved results (Case Study, Question, Comparison)\n- **Listicle**: Ordered list of atomic items (List, Problem)\n- **Problem-Solver**: Agitate pain → solution (Problem, Question, Contrarian)\n- **Tutorial**: Step-by-step to one outcome (Education, List)\n- **Personal Story**: First-person lessons (Personal Experience, Problem)\n\n### The 2-1-3-4 Ordering Method\nPut your SECOND-BEST point first. BEST point second. Then 3rd, 4th, etc.\n\nWhy: Creates ascending value pattern. First amazing + second MORE amazing = subconscious pattern that value is increasing. They stay expecting trend to continue.\n\n### The Value Loop (Each Point)\n1. **Context**: What it is, explained simply\n2. **Application**: How to do it with examples (walk-away value)\n3. **Framing**: Why it matters, how it fits the puzzle\n\n### Rehooking Between Points\nMini-hooks that bridge sections: \"That point was critical, but if you don't couple it with this next one, the whole strategy falls apart.\"\n\n### The Dance: But and Therefore\nBetween every beat, the word should be \"but\" or \"therefore,\" never \"and then.\"\n- \"And then\" = boring pile of detail\n- \"But\" = conflict loop\n- \"Therefore\" = consequence\n\n## 6. RETENTION (Keeping Viewers to the End)\n\n### Pattern Interrupts (Country Roads vs Highway)\nHighway = autopilot, zone out. Country roads = alert, scenery changes. Your video needs country roads.\n- Multiple camera angles\n- Switch talking head ↔ b-roll\n- Physically move (pick up camera, vlog a few lines)\n- Even 3 seconds of single camera without cut can lose people\n\n### Relatability\nBroad relatable examples = broader audience that stays. Cold sponge hitting ground resonates more than specialized tool.\n\n### Subverting Expectations\nWhen something bounces that should splat = funny (expectations violated). Set up expected outcome, deliver different one.\n\n### Raising the Stakes\nMake them realize WHY what you're about to say is critical.\n- Not \"this might hurt\" → \"this will melt your fingers to the bone\"\n- Not \"this helps\" → \"without this, I'd have no following, no business, no lifestyle\"\n\n### The Payoff\nKeep a payoff at the end. Even slow moments survive if viewers need to see who wins / what the conclusion is.\n\n### Immersion Momentum\nLonger they watch = more likely to keep watching. Front-load effort. Primary job = get them immersed, then hold them there.\n\n## 7. THE OUTRO & ENGAGEMENT\n\n### The Fortune Cookie\nLeave lasting positive impression. Summarize points, remind of pain solved, confirm reality beat expectations. Converts passive → active engagers.\n\n### The Forever Loop\nLiteral verbal transition to another video + end card. \"If you liked this but you're still unclear on X, watch this next.\" Turns videos into episodes → binge chain.\n\n### Emotional Transfer\nSix buckets: Awe/inspiration, Amusement/humor, Excitement/joy, Anger/outrage, Surprise/shock/curiosity, Sadness/empathy.\nGreater emotional transfer = more shares (people share to transfer emotion).\n\n### Native Embed CTAs\nNever break \"hypnotic state\" with disconnected ads. Use natural value ramps that complement the topic.\n\nKallaway's data: 7.4% unique viewer-to-subscriber rate (vs 0.5% average) while NEVER asking for subscriptions. If value is good enough, people know to subscribe.\n\n## 8. PRODUCTION WORKFLOW\n\n### Six-Step Script Process\n1. Research: Mine for high-shock facts. Score 1-100. Keep top 5-10.\n2. Target Emotion: Write it at top of page. Filter every decision through it.\n3. Pick Hook Format: Study what's working, apply one of nine formats.\n4. Pick Story Structure: Choose from seven, write outline, slot in facts.\n5. Write Script: Layer facts, add transitions. Tell it like to a friend.\n6. Emotional Gut-Check: Does this drive target emotion? If not, revise.\n\n### Four-Question Script Checklist\n1. Is this story interesting?\n2. Is this as compressed as possible?\n3. Does the hook actually hook me?\n4. What emotion do I feel when I finish?\n\n### Productivity Principles\n- **Parkinson's Law**: Cut time in half, you'll still finish. Urgency forces focus.\n- **80% Rule**: 80% quality is often enough. Final 20% rarely worth the time.\n- **Environment Matters**: Natural light, pleasant workspace dramatically affect output.\n- **10-Minute Walk**: When stuck, walk outside. Come back. Answers work themselves out.\n\n## 9. APPLYING TO THE AESTHETIC CITY\n\n### Shock Value Lives in the Data Gap\nAudience suspects traditional architecture is better but hasn't seen compiled proof: 77% UK preference for traditional styles, Beaux-Arts collapse, economic premium on walkable neighborhoods.\n\n### Contrarian Hook Fits Naturally\nYour niche IS contrarian. Schools teach one thing. Public wants another. Perfect for 3-step hook formula.\n\n### Visual Hooks Are Your Superpower\nStunning classical architecture, detailed drawings, before/after urban comparisons. 3-5 word text overlay on sweeping classical building shot stops scrollers faster than any talking head.\n\n### Trust Ladder Favors Your Growth Phase\n200K+ subs, millions of views = crowd verification cleared. Proof signals strong (consulting, summer school, Academy). Get through trust ladder faster → more time for body/retention.\n\n### Bingeability Through the Canon\nClassical architecture has natural knowledge hierarchy: proportion, orders, urban composition, street design, civic buildings. Forever-loop transitions build curriculum-like binge path.\n"

/-- The BUILT_IN_KNOWLEDGE registry of app.py (lines 367-429), as an ordered association list. -/
def BUILT_IN_KNOWLEDGE : List (String × BuiltinRecord) :=
  [("viral_playbook",
   { name := "📖 Viral Video Playbook",
     source := "MrBeast, Kallaway, Film Booth, Jon Dorman — synthesized for TAC",
     active := true,
     principles := [
      "Algorithm = Audience. If people click and watch, it gets promoted.",
      "Quality over quantity. One killer video beats ten average ones.",
      "Content = expectations vs reality. Reality must beat expectations.",
      "Score facts 1-100 on shock value. Only use 70+ facts.",
      "Titles under 50 chars. Extreme = higher CTR (but must deliver).",
      "Kallaway's 3-step hook: Context Lean → Scroll-Stop → Contrarian Snapback",
      "Four hook commandments: Alignment, Speed to Value, Clarity, Curiosity",
      "Visual hooks are 10x more powerful than spoken-word alone",
      "First 60 seconds must confirm AND beat title expectations",
      "Trust ladder: Crowd verification → Proof → First dopamine hit → Second hit",
      "Speed to list: Start first point within 55 seconds",
      "2-1-3-4 ordering: Second-best first, best second, then descending",
      "Value loop for each point: Context → Application → Framing",
      "Rehook between points to prevent drop-off at transitions",
      "But/Therefore between beats, never 'and then'",
      "Pattern interrupts every 30-45 sec (country roads, not highway)",
      "Raise stakes: 'melt your fingers' not 'might hurt'",
      "Payoff at end keeps viewers through slow moments",
      "Fortune cookie outro: summarize, remind of pain solved",
      "Forever loop: verbal transition to next video + end card",
      "Spend 50%+ of time on idea, title, packaging, first 2 minutes"],
     full_text := some VIRAL_PLAYBOOK }),
  ("ruben_voice",
   { name := "🎤 Ruben's Writing Voice",
     source := "The Aesthetic City channel analysis",
     active := true,
     principles := [
      "Write in long, flowing sentences that connect ideas naturally - not staccato AI writing",
      "Use verbal tics: 'quite frankly', 'by the way', 'and not only that', 'honestly', 'I think'",
      "Include parenthetical asides mid-sentence for authenticity",
      "Stack evidence casually: 'X found this, Y found the same, our study confirmed it'",
      "Give experts character: 'Krier is not your ordinary urban planner'",
      "Frame as a journey: mystery to discovery to revelation",
      "Use 'but' to connect contrasting ideas, not 'This isn't X... this is Y'",
      "Avoid em dashes (—), use commas or 'but' instead",
      "Never use: 'Let's dive in', 'Furthermore', 'In conclusion', 'without further ado'",
      "Avoid rhetorical one-liners and mic-drop sentences - too TED-talk",
      "Include disclaimers and rambling that feels human and unscripted"],
     full_text := none }),
  ("architecture_expertise",
   { name := "🏛️ Architecture & Urbanism Context",
     source := "The Aesthetic City domain knowledge",
     active := true,
     principles := [
      "Reference key figures: Léon Krier, Christopher Alexander, Nikos Salingaros, Andrés Duany",
      "Use specific project examples: Poundbury, Cayalá, Le Plessis-Robinson, Seaside, Jakriborg",
      "Contrast traditional vs modernist approaches with concrete examples",
      "Connect architectural choices to human wellbeing and psychology",
      "Reference neuroscience and biophilia research when relevant",
      "Acknowledge the complexity - avoid oversimplification",
      "Ground arguments in visual evidence the viewer can see"],
     full_text := none })]

/-- The STORY_STRUCTURES table of app.py (lines 443-449), as an ordered association list. -/
def STORY_STRUCTURES : List (String × StoryStructure) :=
  [("Breakdown", { beats := ["Hook", "Concept Overview", "Component 1", "Component 2", "Component 3", "Synthesis", "Application"], best_for := "Explaining complex concepts", hooks := ["Secret Reveal", "Question", "Contrarian"] }),
   ("Case Study", { beats := ["Example Intro", "Context/History", "Transformation", "Key Factors", "Principles", "Application", "Forever Loop"], best_for := "Project deep-dives", hooks := ["Case Study", "Comparison", "Question"] }),
   ("Problem-Solver", { beats := ["Pain Point", "Consequences", "Promise", "Solution Framework", "Evidence", "Action Steps", "Vision"], best_for := "How-to content", hooks := ["Problem", "Contrarian", "Question"] }),
   ("Myth-Busting", { beats := ["Common Belief", "Why It Seems True", "The Counter-Evidence", "The Real Truth", "Examples", "Implications", "Reframe"], best_for := "Challenging assumptions", hooks := ["Contrarian", "Secret Reveal", "Question"] }),
   ("Personal Story", { beats := ["Hook Moment", "Context", "Challenge", "Journey", "Discovery", "Lesson", "Application"], best_for := "Travel/discovery content", hooks := ["Personal Experience", "Question", "Problem"] })]


/-- `list(BUILT_IN_KNOWLEDGE.keys())` of app.py. -/
def builtinKeys : List String := BUILT_IN_KNOWLEDGE.map Prod.fst

/-- `get_active_knowledge` of app.py (lines 553-575), with the session state
(`active_builtin`, `knowledge_sources`) passed explicitly and the registry a
parameter; `include_full_playbook` as in the source. -/
def get_active_knowledge_gen (registry : List (String × BuiltinRecord))
    (active_builtin : List String) (knowledge_sources : List DynSource)
    (include_full_playbook : Bool) : String :=
  let afterBuiltin := active_builtin.foldl (fun acc key =>
    match registry.lookup key with
    | some kb =>
      if key == "viral_playbook" && include_full_playbook && kb.full_text.isSome then
        acc ++ ("\n\n" ++ kb.full_text.getD "")
      else
        acc ++ ("\n\n### " ++ kb.name ++ "\n" ++
          String.intercalate "\n" (kb.principles.map (fun p => "- " ++ p)))
    | none => acc) ""
  knowledge_sources.foldl (fun acc s =>
    if s.active.getD true then
      acc ++ ("\n\n### " ++ s.name ++ " (from: " ++ s.url ++ ")\n" ++
        s.extracted_advice.getD "")
    else acc) afterBuiltin

/-- `get_active_knowledge` applied to the application registry. -/
def get_active_knowledge (active_builtin : List String)
    (knowledge_sources : List DynSource) (include_full_playbook : Bool) : String :=
  get_active_knowledge_gen BUILT_IN_KNOWLEDGE active_builtin knowledge_sources
    include_full_playbook

/-- The text block one active built-in key contributes to the aggregation
(the body of the first loop of `get_active_knowledge`); `""` when the key is
not in the registry. -/
def builtinBlock (registry : List (String × BuiltinRecord)) (full : Bool)
    (key : String) : String :=
  match registry.lookup key with
  | some kb =>
    if key == "viral_playbook" && full && kb.full_text.isSome then
      "\n\n" ++ kb.full_text.getD ""
    else
      "\n\n### " ++ kb.name ++ "\n" ++
        String.intercalate "\n" (kb.principles.map (fun p => "- " ++ p))
  | none => ""

/-- The content of a static record in the sense of the spec: its full-text
block when the playbook full text is present and requested, otherwise its
bulleted principle list. -/
def builtinContent (full : Bool) (key : String) (kb : BuiltinRecord) : String :=
  if key == "viral_playbook" && full && kb.full_text.isSome then kb.full_text.getD ""
  else String.intercalate "\n" (kb.principles.map (fun p => "- " ++ p))

/-- The text block one dynamic source contributes when active (the body of
the second loop of `get_active_knowledge`). -/
def dynBlock (s : DynSource) : String :=
  "\n\n### " ++ s.name ++ " (from: " ++ s.url ++ ")\n" ++ s.extracted_advice.getD ""

/-- The contribution of a dynamic source: its block when active, else nothing. -/
def dynIfBlock (s : DynSource) : String :=
  if s.active.getD true then dynBlock s else ""

/-- Concatenation of the blocks of a list (a fold the two loops of
`get_active_knowledge` are proved equal to). -/
def catMap (f : α → String) : List α → String
  | [] => ""
  | x :: xs => f x ++ catMap f xs

/-- The declaration-order aggregation the spec describes for claim C3: static
records are listed in registry-declaration order (filtered by the active
set), then dynamic records in store order.  This follows the SPEC text, to be
compared with `get_active_knowledge`. -/
def get_active_knowledge_spec_order (registry : List (String × BuiltinRecord))
    (active_builtin : List String) (knowledge_sources : List DynSource)
    (full : Bool) : String :=
  catMap (fun e => if e.1 ∈ active_builtin then builtinBlock registry full e.1 else "")
    registry ++ catMap dynIfBlock knowledge_sources

/-- The Built-in Knowledge toggle handler of app.py (lines 1129-1134):
`remove` when present, `append` when not. -/
def toggle_builtin (active_builtin : List String) (key : String) : List String :=
  if key ∈ active_builtin then active_builtin.erase key else active_builtin ++ [key]

/-- The sidebar active custom source count of app.py (line 647):
`len([s for s in knowledge_sources if s.get("active", True)])`. -/
def custom_sources_active_count (sources : List DynSource) : Nat :=
  (sources.filter (fun s => s.active.getD true)).length

/-- The credential state `get_api_key` reads: the deployment secret store
entry (`none` when `ANTHROPIC_API_KEY` is not a key of `st.secrets`), the
`ANTHROPIC_API_KEY` environment value (`""` when unset) and the session-held
`api_key` value (`st.session_state.get("api_key", "")`). -/
structure Config where
  secrets_api_key : Option String
  env_api_key : String
  session_api_key : String
deriving DecidableEq

/-- `get_api_key` of app.py (lines 129-137): the secrets value whenever the
key is present, else the environment value when truthy (non-empty), else the
session value. -/
def get_api_key (c : Config) : String :=
  match c.secrets_api_key with
  | some v => v
  | none => if c.env_api_key ≠ "" then c.env_api_key else c.session_api_key

/-- `get_client` of app.py (lines 455-457): a client exactly when the
resolved key is truthy (non-empty); the client is modelled by its key. -/
def get_client (c : Config) : Option String :=
  if get_api_key c ≠ "" then some (get_api_key c) else none

/-- `generate` of app.py (lines 459-471).  `transport` models
`client.messages.create` (a returned text or a raised exception rendered
`"❌ " ++ e`); the `Nat` of the result counts network calls made. -/
def generate (c : Config) (transport : String → Nat → Except String String)
    (prompt : String) (max_tokens : Nat) : (Option String × Option String) × Nat :=
  match get_client c with
  | none => ((none, some "❌ No API key configured. Add it in Settings → Secrets."), 0)
  | some _ =>
    match transport prompt max_tokens with
    | Except.ok t => ((some t, none), 1)
    | Except.error e => ((none, some ("❌ " ++ e)), 1)

/-- A history ledger entry of app.py (lines 492-497). -/
structure HistoryItem where
  type : String
  content : String
  metadata : List (String × String)
  timestamp : String
deriving DecidableEq

/-- `save_to_history` of app.py (lines 489-497): append one entry. -/
def save_to_history (history : List HistoryItem) (ty content : String)
    (metadata : List (String × String)) (timestamp : String) : List HistoryItem :=
  history ++ [{ type := ty, content := content, metadata := metadata,
                timestamp := timestamp }]

/-- The History mode clear action of app.py (line 1282):
`st.session_state.history = []`. -/
def clear_history (_history : List HistoryItem) : List HistoryItem := []

/-- The History mode display order of app.py (line 1275):
`reversed(st.session_state.history)`. -/
def display_history (history : List HistoryItem) : List HistoryItem :=
  history.reverse

/-- Byte-for-byte the prefix test on character lists: `startsWithL t s` is
true when `t` is a prefix of `s`. -/
def startsWithL : List Char → List Char → Bool
  | [], _ => true
  | _ :: _, [] => false
  | a :: as, b :: bs => a == b && startsWithL as bs

/-- `isSub t s`: `t` occurs contiguously inside `s`. -/
def isSub (t : List Char) : List Char → Bool
  | [] => t.isEmpty
  | c :: s => startsWithL t (c :: s) || isSub t s

/-- `containsStr s t`: `t` is a substring of `s`. -/
def containsStr (s t : String) : Bool := isSub t.data s.data

/-- The session knowledge state the sidebar and the Knowledge Sources mode
mutate: the `knowledge_loaded` flag, the mirrored source rows and the active
built-in key list. -/
structure KnowledgeState where
  knowledge_loaded : Bool
  knowledge_sources : List DynSource
  active_builtin : List String
deriving DecidableEq

/-- `init_knowledge_state` of app.py (lines 527-542).  `loadResult` is what
`load_persistent_sources` returned: on success the rows (the source pairs
them with `list(BUILT_IN_KNOWLEDGE.keys())` as `active_builtin`, lines
51-53), `none` on failure or missing configuration. -/
def init_knowledge_state (st : KnowledgeState)
    (loadResult : Option (List DynSource)) : KnowledgeState :=
  if st.knowledge_loaded then st
  else
    match loadResult with
    | some rows =>
      { knowledge_loaded := true, knowledge_sources := rows,
        active_builtin := builtinKeys }
    | none => st

/-- `reload_sources` of app.py (lines 548-551): clear the loaded flag and
re-initialise. -/
def reload_sources (st : KnowledgeState)
    (loadResult : Option (List DynSource)) : KnowledgeState :=
  init_knowledge_state { st with knowledge_loaded := false } loadResult

/-- `update_source_in_db` of app.py (lines 85-102) in the successful case:
`PATCH ...?id=eq.<sid>` with body `{"active": b}` patches every row whose id
matches. -/
def update_source_in_db_ok (db : List DynSource) (sid : Nat) (b : Bool) :
    List DynSource :=
  db.map (fun r => if r.id == some sid then { r with active := some b } else r)

/-- The Custom Sources toggle handler of app.py (lines 1250-1255) acting on
the remote table when the update succeeds: when the in-memory source has an
id, its row's active flag is set to the negation of the in-memory
`source.get("active", True)`; a source without an id updates nothing.
(The handler then clears `knowledge_loaded`, so the next aggregation reloads
the table and resets `active_builtin` to `builtinKeys`.) -/
def toggle_custom_ok (db : List DynSource) (src : DynSource) : List DynSource :=
  match src.id with
  | some sid => update_source_in_db_ok db sid (!(src.active.getD true))
  | none => db

/-- `int(length.split()[0]) * 150` of app.py (line 980), tabulated on the
five values the Length selectbox offers (line 952). -/
def lengthWords : String → Nat
  | "5 min" => 750
  | "8 min" => 1200
  | "12 min" => 1800
  | "15 min" => 2250
  | "20 min" => 3000
  | _ => 0

/-- The fixed REQUIREMENTS tail of the Quick Script prompt (app.py lines
1000-1013). -/
def quickScriptRequirements : String :=
  "\n\nREQUIREMENTS:\n1. Use Kallaway's 3-step hook formula (context lean → scroll-stop → snapback)\n2. Apply 2-1-3-4 ordering (second-best point first, best second)\n3. Include [B-ROLL: description] markers throughout\n4. Rehook between major sections\n5. Use \"but\" and \"therefore\" between beats, not \"and then\"\n6. First dopamine hit within 60 seconds\n7. Pattern interrupts every 30-45 seconds (suggest visuals/camera changes)\n8. Fortune cookie outro with forever loop to related video\n9. Write in Ruben's voice: flowing sentences, verbal tics, no AI clichés\n\nGenerate the complete, ready-to-record script:"

/-- The beat list string of the selected structure:
`", ".join(STORY_STRUCTURES[structure]["beats"])` (app.py line 979). -/
def structureBeats (structure_name : String) : String :=
  String.intercalate ", "
    (((STORY_STRUCTURES.lookup structure_name).getD
        { beats := [], best_for := "", hooks := [] }).beats)

/-- The fixed head of the Quick Script prompt (the f-string of app.py lines
983-992). `knowledge` is the value of
`get_active_knowledge(include_full_playbook=True)` computed by the handler. -/
def quick_script_base (idea structure_name length hook_format knowledge : String) :
    String :=
  "Write a complete YouTube script for The Aesthetic City channel (209K subscribers, classical architecture and traditional urbanism).\n\nIDEA: "
  ++ idea ++ "\nSTRUCTURE: " ++ structure_name ++ " - Beats: "
  ++ structureBeats structure_name
  ++ "\nLENGTH: ~" ++ toString (lengthWords length) ++ " words (" ++ length ++ ")\n"
  ++ (if hook_format ≠ "Auto-select" then "HOOK FORMAT: " ++ hook_format else "")
  ++ "\n\nKNOWLEDGE BASE (apply these principles throughout):\n" ++ knowledge ++ "\n"

/-- The Quick Script prompt assembly of app.py (lines 979-1013): the fixed
head, then each optional field appended exactly when truthy (lines 993-998),
then the fixed REQUIREMENTS tail. -/
def quick_script_prompt (idea structure_name length hook_format : String)
    (must_include examples experts avoid emotion cta : String)
    (knowledge : String) : String :=
  quick_script_base idea structure_name length hook_format knowledge
    ++ (if must_include ≠ "" then "\nMUST INCLUDE:\n" ++ must_include else "")
    ++ (if examples ≠ "" then "\nFEATURE PROJECTS: " ++ examples else "")
    ++ (if experts ≠ "" then "\nREFERENCE EXPERTS: " ++ experts else "")
    ++ (if avoid ≠ "" then "\nAVOID: " ++ avoid else "")
    ++ (if emotion ≠ "Auto" then "\nTARGET EMOTION: " ++ emotion else "")
    ++ (if cta ≠ "None" then "\nCTA: " ++ cta else "")
    ++ quickScriptRequirements

/-- The name, origin, extracted advice and active flag of a dynamic source:
the tuple the export/import round trip of the spec preserves. -/
def sourceTuple (s : DynSource) : String × String × String × Bool :=
  (s.name, s.url, s.extracted_advice.getD "", s.active.getD true)

/-- Modelled from the spec: the escaping used by the structured text document
of the file-based export/import of dynamic knowledge sources (the
export/import code itself is not among the repository files staged under
src/).  A field is written on one line with backslash, newline and tab
escaped. -/
def esc : List Char → List Char
  | [] => []
  | c :: cs =>
    if c = '\\' then '\\' :: '\\' :: esc cs
    else if c = '\n' then '\\' :: 'n' :: esc cs
    else if c = '\t' then '\\' :: 't' :: esc cs
    else c :: esc cs

/-- Modelled from the spec: the inverse of `esc` used when re-ingesting an
uploaded document. -/
def unesc : List Char → List Char
  | [] => []
  | [c] => [c]
  | c :: d :: cs =>
    if c = '\\' then
      (if d = 'n' then '\n' else if d = 't' then '\t' else d) :: unesc cs
    else c :: unesc (d :: cs)

/-- Split a character list on a separator character (the parsing primitive of
the modelled import). -/
def splitOnChar (c : Char) : List Char → List (List Char)
  | [] => [[]]
  | x :: xs =>
    match splitOnChar c xs with
    | [] => if x = c then [[], []] else [[x]]
    | h :: t => if x = c then [] :: h :: t else (x :: h) :: t

/-- Join character lists with a separator character (the serialising
primitive of the modelled export). -/
def joinChar (c : Char) : List (List Char) → List Char
  | [] => []
  | [p] => p
  | p :: ps => p ++ c :: joinChar c ps

/-- Modelled from the spec: one line of the structured export document — the
four fields of a dynamic source, escaped and tab-separated. -/
def exportLine (s : DynSource) : List Char :=
  joinChar '\t'
    [esc s.name.data, esc s.url.data, esc (s.extracted_advice.getD "").data,
     (if s.active.getD true then "true" else "false").data]

/-- Modelled from the spec: serialize the dynamic knowledge store to the
structured text document, one line per source, newest-first store order
kept. -/
def export_sources (l : List DynSource) : String :=
  ⟨joinChar '\n' (l.map exportLine)⟩

/-- Modelled from the spec: parse one line of an uploaded document; `none`
is a parse failure.  Remote ids are not part of the document (they are
assigned fresh by the store on create). -/
def parseLine (cs : List Char) : Option DynSource :=
  match splitOnChar '\t' cs with
  | [n, u, a, act] =>
    if act = "true".data then
      some { name := ⟨unesc n⟩, url := ⟨unesc u⟩,
             extracted_advice := some ⟨unesc a⟩, active := some true,
             transcript_words := none, id := none }
    else if act = "false".data then
      some { name := ⟨unesc n⟩, url := ⟨unesc u⟩,
             extracted_advice := some ⟨unesc a⟩, active := some false,
             transcript_words := none, id := none }
    else none
  | _ => none

/-- Modelled from the spec: parse every line, failing when any line fails
(the parse-success check). -/
def parseLines : List (List Char) → Option (List DynSource)
  | [] => some []
  | l :: ls =>
    match parseLine l, parseLines ls with
    | some r, some rs => some (r :: rs)
    | _, _ => none

/-- Modelled from the spec: re-ingest an uploaded document of the exported
shape; the only validation is the parse-success check. -/
def import_sources (doc : String) : Option (List DynSource) :=
  if doc.data = [] then some []
  else parseLines (splitOnChar '\n' doc.data)

theorem sdata_append (a b : String) : (a ++ b).data = a.data ++ b.data := rfl

theorem sapp_nil (a : String) : a ++ "" = a := by
  cases a with
  | mk d => show String.mk (d ++ []) = String.mk d
            rw [List.append_nil]

theorem nil_sapp (a : String) : "" ++ a = a := rfl

theorem sapp_assoc (a b c : String) : a ++ b ++ c = a ++ (b ++ c):= by
  cases a with
  | mk x => cases b with
    | mk y => cases c with
      | mk z => show String.mk (x ++ y ++ z) = String.mk (x ++ (y ++ z))
                rw [List.append_assoc]

theorem startsWithL_self_append (t r : List Char) : startsWithL t (t ++ r) = true := by
  induction t with
  | nil => rfl
  | cons a as ih => simp [startsWithL, ih]

theorem isSub_nil_left (s : List Char) : isSub [] s = true := by
  cases s with
  | nil => rfl
  | cons c s => simp [isSub, startsWithL]

theorem isSub_self_append (t r : List Char) : isSub t (t ++ r) = true := by
  cases t with
  | nil => simpa using isSub_nil_left r
  | cons a as =>
    have h := startsWithL_self_append (a :: as) r
    simp only [List.cons_append] at h
    simp [isSub, h]

theorem isSub_cons (t : List Char) (c : Char) (s : List Char)
    (h : isSub t s = true) : isSub t (c :: s) = true := by
  simp [isSub, h]

theorem isSub_append_left (l t s : List Char) (h : isSub t s = true) :
    isSub t (l ++ s) = true := by
  induction l with
  | nil => simpa using h
  | cons c cs ih => simpa using isSub_cons t c (cs ++ s) ih

theorem startsWithL_extend (t s r : List Char) (h : startsWithL t s = true) :
    startsWithL t (s ++ r) = true := by
  induction t generalizing s with
  | nil => rfl
  | cons a as ih =>
    cases s with
    | nil => simp [startsWithL] at h
    | cons b bs =>
      simp only [startsWithL, Bool.and_eq_true] at h ⊢
      exact ⟨h.1, ih bs h.2⟩

theorem isSub_append_right (t s r : List Char) (h : isSub t s = true) :
    isSub t (s ++ r) = true := by
  induction s with
  | nil =>
    simp only [isSub, List.isEmpty_iff] at h
    subst h
    simpa using isSub_nil_left r
  | cons c cs ih =>
    simp only [isSub, Bool.or_eq_true] at h
    rcases h with h | h
    · have := startsWithL_extend t (c :: cs) r h
      simp only [List.cons_append] at this ⊢
      simp [isSub, this]
    · simpa using isSub_cons t c (cs ++ r) (ih h)

theorem containsStr_refl (t : String) : containsStr t t = true := by
  have := isSub_self_append t.data []
  simpa [containsStr] using this

theorem containsStr_mono_left (l s t : String) (h : containsStr s t = true) :
    containsStr (l ++ s) t = true := by
  simpa [containsStr, sdata_append] using isSub_append_left l.data t.data s.data h

theorem containsStr_mono_right (s r t : String) (h : containsStr s t = true) :
    containsStr (s ++ r) t = true := by
  simpa [containsStr, sdata_append] using isSub_append_right t.data s.data r.data h

theorem containsStr_append_self (pre t : String) : containsStr (pre ++ t) t = true :=
  containsStr_mono_left pre t t (containsStr_refl t)

theorem catMap_append (f : α → String) (l₁ l₂ : List α) :
    catMap f (l₁ ++ l₂) = catMap f l₁ ++ catMap f l₂ := by
  induction l₁ with
  | nil => simp [catMap, nil_sapp]
  | cons x xs ih => simp [catMap, ih, sapp_assoc]

theorem foldl_catMap (f : α → String) (g : String → α → String)
    (hg : ∀ a x, g a x = a ++ f x) (l : List α) (init : String) :
    l.foldl g init = init ++ catMap f l := by
  induction l generalizing init with
  | nil => simp [catMap, sapp_nil]
  | cons x xs ih =>
    simp only [List.foldl_cons, catMap]
    rw [ih, hg, sapp_assoc]

theorem get_active_knowledge_gen_eq (registry : List (String × BuiltinRecord))
    (ab : List String) (srcs : List DynSource) (full : Bool) :
    get_active_knowledge_gen registry ab srcs full
      = catMap (builtinBlock registry full) ab ++ catMap dynIfBlock srcs := by
  show (srcs.foldl _ (ab.foldl _ "")) = _
  rw [foldl_catMap (builtinBlock registry full) _
        (fun a key => by
          cases h : registry.lookup key with
          | none => simp [builtinBlock, h, sapp_nil]
          | some kb =>
            simp only [builtinBlock, h]
            split <;> simp [*])
        ab "",
      foldl_catMap dynIfBlock _
        (fun a s => by
          simp only [dynIfBlock, dynBlock]
          split <;> simp [sapp_nil])
        srcs, nil_sapp]

theorem builtin_contains (registry : List (String × BuiltinRecord))
    (ab : List String) (srcs : List DynSource) (full : Bool)
    (key : String) (kb : BuiltinRecord)
    (hmem : key ∈ ab) (hlook : registry.lookup key = some kb) :
    containsStr (get_active_knowledge_gen registry ab srcs full)
      (builtinContent full key kb) = true := by
  obtain ⟨l₁, l₂, rfl⟩ := List.append_of_mem hmem
  rw [get_active_knowledge_gen_eq, catMap_append]
  have hblock : containsStr (builtinBlock registry full key)
      (builtinContent full key kb) = true := by
    rw [builtinBlock, hlook, builtinContent]
    cases hc : (key == "viral_playbook" && full && kb.full_text.isSome) with
    | true =>
      have h := containsStr_append_self "\n\n" (kb.full_text.getD "")
      simpa [hc] using h
    | false =>
      have h := containsStr_append_self ("\n\n### " ++ kb.name ++ "\n")
        (String.intercalate "\n" (kb.principles.map (fun p => "- " ++ p)))
      simpa [hc] using h
  have h1 : containsStr (builtinBlock registry full key ++ catMap (builtinBlock registry full) l₂)
      (builtinContent full key kb) = true :=
    containsStr_mono_right _ _ _ hblock
  have h2 : containsStr (catMap (builtinBlock registry full) (key :: l₂))
      (builtinContent full key kb) = true := h1
  have h3 := containsStr_mono_left (catMap (builtinBlock registry full) l₁) _ _ h2
  exact containsStr_mono_right _ _ _ h3

theorem dyn_contains (registry : List (String × BuiltinRecord))
    (ab : List String) (srcs : List DynSource) (full : Bool)
    (s : DynSource) (hmem : s ∈ srcs) (hact : s.active.getD true = true) :
    containsStr (get_active_knowledge_gen registry ab srcs full)
      (s.extracted_advice.getD "") = true := by
  obtain ⟨l₁, l₂, rfl⟩ := List.append_of_mem hmem
  rw [get_active_knowledge_gen_eq, catMap_append]
  have hblock : containsStr (dynIfBlock s) (s.extracted_advice.getD "") = true := by
    rw [dynIfBlock, if_pos hact, dynBlock]
    exact containsStr_append_self _ _
  have h1 : containsStr (catMap dynIfBlock (s :: l₂)) (s.extracted_advice.getD "") = true :=
    containsStr_mono_right _ _ _ hblock
  have h2 := containsStr_mono_left (catMap dynIfBlock l₁) _ _ h1
  exact containsStr_mono_left _ _ _ h2

theorem catMap_dynIf_filter (srcs : List DynSource) :
    catMap dynIfBlock srcs
      = catMap dynIfBlock (srcs.filter (fun s => s.active.getD true)) := by
  induction srcs with
  | nil => rfl
  | cons s ss ih =>
    cases h : s.active.getD true with
    | true => simp [List.filter, h, catMap, ih]
    | false => simp [List.filter, h, catMap, dynIfBlock, ih, nil_sapp]

/-- C1 (amended): for every configuration the aggregated knowledge text
contains every active static record's content (full text when present and
requested, else the bulleted principle list) and every active dynamic
record's extracted advice, and inactive dynamic records contribute nothing:
the output equals the aggregation of the store restricted to its active
records.  (The original claim's "contains none of the inactive content"
fails when an inactive record's content coincides with text an active record
contributes, see the counterexample.) -/
theorem c1_active_knowledge_containment
    (registry : List (String × BuiltinRecord)) (ab : List String)
    (srcs : List DynSource) (full : Bool) :
    (∀ key kb, key ∈ ab → registry.lookup key = some kb →
      containsStr (get_active_knowledge_gen registry ab srcs full)
        (builtinContent full key kb) = true)
  ∧ (∀ s, s ∈ srcs → s.active.getD true = true →
      containsStr (get_active_knowledge_gen registry ab srcs full)
        (s.extracted_advice.getD "") = true)
  ∧ get_active_knowledge_gen registry ab srcs full
      = get_active_knowledge_gen registry ab
          (srcs.filter (fun s => s.active.getD true)) full := by
  refine ⟨fun key kb hmem hlook => builtin_contains registry ab srcs full key kb hmem hlook,
    fun s hmem hact => dyn_contains registry ab srcs full s hmem hact, ?_⟩
  rw [get_active_knowledge_gen_eq, get_active_knowledge_gen_eq, catMap_dynIf_filter]

/-- C1 counterexample: a configuration in which the aggregated text does
contain the content of a record whose active flag is off — the inactive
source B shares its extracted advice with the active source A, so "TIP"
still occurs in the output. -/
theorem c1_counterexample :
    containsStr
      (get_active_knowledge []
        [ { name := "A", url := "ua", extracted_advice := some "TIP", active := some true },
          { name := "B", url := "ub", extracted_advice := some "TIP", active := some false } ]
        false)
      "TIP" = true := by decide

/-- C1 witness: the containment parts applied at a concrete configuration. -/
theorem c1_witness :
    containsStr
      (get_active_knowledge_gen
        [("k", { name := "N", source := "S", active := true, principles := ["p"], full_text := none })]
        ["k"]
        [ { name := "D", url := "u", extracted_advice := some "adv", active := none } ]
        false)
      "adv" = true :=
  (c1_active_knowledge_containment
      [("k", { name := "N", source := "S", active := true, principles := ["p"], full_text := none })]
      ["k"]
      [ { name := "D", url := "u", extracted_advice := some "adv", active := none } ]
      false).2.1
    { name := "D", url := "u", extracted_advice := some "adv", active := none }
    (by decide) rfl

/-- C3 counterexample: after toggling the playbook off and on again the
session's active list is permuted, and the aggregated text no longer lists
the static records in registry-declaration order — the code output differs
from the declaration-ordered aggregation over the same active set. -/
theorem c3_counterexample :
    (get_active_knowledge
        (List.foldl toggle_builtin builtinKeys ["viral_playbook", "viral_playbook"]) [] false
      == get_active_knowledge_spec_order BUILT_IN_KNOWLEDGE
        (List.foldl toggle_builtin builtinKeys ["viral_playbook", "viral_playbook"]) [] false)
      = false := by decide

/-- C3 (amended): the aggregated text is the static blocks in the order of
the session's `active_builtin` list followed by the dynamic blocks in store
order; the initial list is the registry keys in declaration order, where the
two aggregations agree, but toggling a built-in record off and on again
moves it to the end of the list. -/
theorem c3_aggregation_order (ab : List String) (srcs : List DynSource) (full : Bool) :
    get_active_knowledge ab srcs full
      = catMap (builtinBlock BUILT_IN_KNOWLEDGE full) ab ++ catMap dynIfBlock srcs
  ∧ get_active_knowledge builtinKeys srcs full
      = get_active_knowledge_spec_order BUILT_IN_KNOWLEDGE builtinKeys srcs full
  ∧ toggle_builtin (toggle_builtin builtinKeys "viral_playbook") "viral_playbook"
      = ["ruben_voice", "architecture_expertise", "viral_playbook"] := by
  refine ⟨get_active_knowledge_gen_eq _ _ _ _, ?_, by decide⟩
  rw [get_active_knowledge, get_active_knowledge_gen_eq, get_active_knowledge_spec_order]
  cases full <;> rfl

/-- C2: `generate` populates exactly one of (text, error); with no resolvable
credential (the secret key absent or empty, the environment and session
values empty) it returns no text, an error containing "API key", and makes
no network call. -/
theorem c2_generate_contract (c : Config)
    (transport : String → Nat → Except String String) (prompt : String) (mt : Nat) :
    (((generate c transport prompt mt).1.1.isSome
        && (generate c transport prompt mt).1.2.isSome) = false
      ∧ ((generate c transport prompt mt).1.1.isSome
        || (generate c transport prompt mt).1.2.isSome) = true)
  ∧ ((c.secrets_api_key = none ∨ c.secrets_api_key = some "") →
      c.env_api_key = "" → c.session_api_key = "" →
      generate c transport prompt mt
          = ((none, some "❌ No API key configured. Add it in Settings → Secrets."), 0)
        ∧ containsStr "❌ No API key configured. Add it in Settings → Secrets."
            "API key" = true) := by
  constructor
  · rw [generate]
    cases get_client c with
    | none => simp
    | some k => cases transport prompt mt with
      | ok t => simp
      | error e => simp
  · intro hsec henv hsess
    have hkey : get_api_key c = "" := by
      rw [get_api_key]
      rcases hsec with h | h <;> (rw [h]; try simp [henv, hsess])
    constructor
    · rw [generate, get_client, hkey]
      simp
    · decide

/-- C2 witness: the no-credential case at a concrete configuration and a
stubbed transport that would have answered. -/
theorem c2_witness :
    generate { secrets_api_key := none, env_api_key := "", session_api_key := "" }
        (fun _ _ => Except.ok "HOOK A / HOOK B") "p" 4000
      = ((none, some "❌ No API key configured. Add it in Settings → Secrets."), 0) :=
  ((c2_generate_contract { secrets_api_key := none, env_api_key := "", session_api_key := "" }
      (fun _ _ => Except.ok "HOOK A / HOOK B") "p" 4000).2
    (Or.inl rfl) rfl rfl).1

/-- C5: the history ledger is append-only — `save_to_history` appends exactly
one entry and leaves existing entries unchanged, N generations starting from
an empty ledger give exactly the N entries in call order, display reverses,
and the clear action empties the ledger. -/
theorem c5_history_ledger (h : List HistoryItem) (ty content : String)
    (md : List (String × String)) (ts : String)
    (gens : List (String × String × List (String × String) × String)) :
    save_to_history h ty content md ts
      = h ++ [{ type := ty, content := content, metadata := md, timestamp := ts }]
  ∧ (save_to_history h ty content md ts).length = h.length + 1
  ∧ List.foldl (fun acc g => save_to_history acc g.1 g.2.1 g.2.2.1 g.2.2.2) [] gens
      = gens.map (fun g =>
          ({ type := g.1, content := g.2.1, metadata := g.2.2.1,
             timestamp := g.2.2.2 } : HistoryItem))
  ∧ display_history (save_to_history h ty content md ts)
      = (h ++ [({ type := ty, content := content, metadata := md,
                  timestamp := ts } : HistoryItem)]).reverse
  ∧ clear_history h = [] := by
  have key : ∀ (gens : List (String × String × List (String × String) × String))
      (init : List HistoryItem),
      List.foldl (fun acc g => save_to_history acc g.1 g.2.1 g.2.2.1 g.2.2.2) init gens
        = init ++ gens.map (fun g =>
            ({ type := g.1, content := g.2.1, metadata := g.2.2.1,
               timestamp := g.2.2.2 } : HistoryItem)) := by
    intro gens
    induction gens with
    | nil => intro init; simp
    | cons g gs ih =>
      intro init
      simp only [List.foldl_cons, List.map_cons]
      rw [ih, save_to_history]
      simp
  refine ⟨rfl, by simp [save_to_history], by simpa using key gens [], by rfl, rfl⟩

/-- C7 counterexample: when the secret store holds the key with an empty
value and the environment variable is non-empty, the resolver returns the
empty secret value, not the non-empty environment value the priority rule
promises. -/
theorem c7_counterexample :
    get_api_key { secrets_api_key := some "", env_api_key := "ENVKEY", session_api_key := "" } = ""
  ∧ ("" == "ENVKEY") = false := ⟨rfl, by decide⟩

/-- C7 (amended): the secret store wins whenever the key is present (even
with an empty value); with the key absent, a non-empty environment value
wins; otherwise the session value is returned — in particular the result is
empty when no source provides a value. -/
theorem c7_api_key_priority (c : Config) :
    (∀ v, c.secrets_api_key = some v → get_api_key c = v)
  ∧ (c.secrets_api_key = none → c.env_api_key ≠ "" → get_api_key c = c.env_api_key)
  ∧ (c.secrets_api_key = none → c.env_api_key = "" → get_api_key c = c.session_api_key)
  ∧ ((c.secrets_api_key = none ∨ c.secrets_api_key = some "") →
      c.env_api_key = "" → c.session_api_key = "" → get_api_key c = "") := by
  refine ⟨fun v hv => by rw [get_api_key, hv], fun hn he => by rw [get_api_key, hn]; simp [he],
    fun hn he => by rw [get_api_key, hn]; simp [he], fun hs he hss => ?_⟩
  rcases hs with h | h <;> (rw [get_api_key, h]; try simp [he, hss])

/-- C7 witness: the resolver applied at a configuration with only a session
value. -/
theorem c7_witness :
    get_api_key { secrets_api_key := none, env_api_key := "", session_api_key := "sess" }
      = "sess" :=
  (c7_api_key_priority
    { secrets_api_key := none, env_api_key := "", session_api_key := "sess" }).2.2.1 rfl rfl

/-- C4 counterexample: the optional fields are not independent — with the
must-include field empty its label line can still appear in the prompt.
First with another field's text containing the label line outright; then
with an avoid value that provably contains no label line, where the label
still forms at the junction with the newline beginning the fixed
REQUIREMENTS tail. -/
theorem c4_counterexample :
    containsStr
      (quick_script_prompt "X" "Problem-Solver" "8 min" "Auto-select"
        "" "A\nMUST INCLUDE:\nB" "" "" "Auto" "None" "")
      "\nMUST INCLUDE:\n" = true
  ∧ containsStr
      (quick_script_prompt "X" "Problem-Solver" "8 min" "Auto-select"
        "" "" "" "x\nMUST INCLUDE:" "Auto" "None" "")
      "\nMUST INCLUDE:\n" = true
  ∧ containsStr "x\nMUST INCLUDE:" "\nMUST INCLUDE:\n" = false := by
  refine ⟨by decide, by decide, by decide⟩

theorem c4_combo_must_include (b₁ b₂ b₃ b₄ b₅ b₆ : Bool) :
    containsStr (quick_script_prompt "X" "Problem-Solver" "8 min" "Auto-select"
        (if b₁ then "point one" else "") (if b₂ then "Poundbury" else "")
        (if b₃ then "Leon Krier" else "") (if b₄ then "politics" else "")
        (if b₅ then "Hope" else "Auto") (if b₆ then "Subscribe" else "None")
        (get_active_knowledge [] [] true)) "\nMUST INCLUDE:\n" = b₁ := by
  revert b₁ b₂ b₃ b₄ b₅ b₆
  decide

theorem c4_combo_feature_projects (b₁ b₂ b₃ b₄ b₅ b₆ : Bool) :
    containsStr (quick_script_prompt "X" "Problem-Solver" "8 min" "Auto-select"
        (if b₁ then "point one" else "") (if b₂ then "Poundbury" else "")
        (if b₃ then "Leon Krier" else "") (if b₄ then "politics" else "")
        (if b₅ then "Hope" else "Auto") (if b₆ then "Subscribe" else "None")
        (get_active_knowledge [] [] true)) "\nFEATURE PROJECTS: " = b₂ := by
  revert b₁ b₂ b₃ b₄ b₅ b₆
  decide

theorem c4_combo_reference_experts (b₁ b₂ b₃ b₄ b₅ b₆ : Bool) :
    containsStr (quick_script_prompt "X" "Problem-Solver" "8 min" "Auto-select"
        (if b₁ then "point one" else "") (if b₂ then "Poundbury" else "")
        (if b₃ then "Leon Krier" else "") (if b₄ then "politics" else "")
        (if b₅ then "Hope" else "Auto") (if b₆ then "Subscribe" else "None")
        (get_active_knowledge [] [] true)) "\nREFERENCE EXPERTS: " = b₃ := by
  revert b₁ b₂ b₃ b₄ b₅ b₆
  decide

theorem c4_combo_avoid_topics (b₁ b₂ b₃ b₄ b₅ b₆ : Bool) :
    containsStr (quick_script_prompt "X" "Problem-Solver" "8 min" "Auto-select"
        (if b₁ then "point one" else "") (if b₂ then "Poundbury" else "")
        (if b₃ then "Leon Krier" else "") (if b₄ then "politics" else "")
        (if b₅ then "Hope" else "Auto") (if b₆ then "Subscribe" else "None")
        (get_active_knowledge [] [] true)) "\nAVOID: " = b₄ := by
  revert b₁ b₂ b₃ b₄ b₅ b₆
  decide

theorem c4_combo_target_emotion (b₁ b₂ b₃ b₄ b₅ b₆ : Bool) :
    containsStr (quick_script_prompt "X" "Problem-Solver" "8 min" "Auto-select"
        (if b₁ then "point one" else "") (if b₂ then "Poundbury" else "")
        (if b₃ then "Leon Krier" else "") (if b₄ then "politics" else "")
        (if b₅ then "Hope" else "Auto") (if b₆ then "Subscribe" else "None")
        (get_active_knowledge [] [] true)) "\nTARGET EMOTION: " = b₅ := by
  revert b₁ b₂ b₃ b₄ b₅ b₆
  decide

theorem c4_combo_cta_line (b₁ b₂ b₃ b₄ b₅ b₆ : Bool) :
    containsStr (quick_script_prompt "X" "Problem-Solver" "8 min" "Auto-select"
        (if b₁ then "point one" else "") (if b₂ then "Poundbury" else "")
        (if b₃ then "Leon Krier" else "") (if b₄ then "politics" else "")
        (if b₅ then "Hope" else "Auto") (if b₆ then "Subscribe" else "None")
        (get_active_knowledge [] [] true)) "\nCTA: " = b₆ := by
  revert b₁ b₂ b₃ b₄ b₅ b₆
  decide

/-- C4 (amended): each non-empty optional field always appears in the prompt
prefixed by its label line, and omitted fields leave no trace of their own —
with every optional field empty the prompt is exactly the fixed head followed
by the fixed REQUIREMENTS tail.  The label-appears-exactly-when-given
biconditional is established over every combination of present and absent
fields at representative field values; it does not hold for arbitrary
inputs, since another field's text can put a label line into the prompt,
either by containing it or by forming it against the newline that follows it
in the assembly (see the counterexample).  The no-optional prompt contains
the idea text and the structure's beat list. -/
theorem c4_optional_fields (idea sname len hf mi ex xp av em ct kn : String) :
    ((mi ≠ "" → containsStr (quick_script_prompt idea sname len hf mi ex xp av em ct kn)
        ("\nMUST INCLUDE:\n" ++ mi) = true)
      ∧ (ex ≠ "" → containsStr (quick_script_prompt idea sname len hf mi ex xp av em ct kn)
        ("\nFEATURE PROJECTS: " ++ ex) = true)
      ∧ (xp ≠ "" → containsStr (quick_script_prompt idea sname len hf mi ex xp av em ct kn)
        ("\nREFERENCE EXPERTS: " ++ xp) = true)
      ∧ (av ≠ "" → containsStr (quick_script_prompt idea sname len hf mi ex xp av em ct kn)
        ("\nAVOID: " ++ av) = true)
      ∧ (em ≠ "Auto" → containsStr (quick_script_prompt idea sname len hf mi ex xp av em ct kn)
        ("\nTARGET EMOTION: " ++ em) = true)
      ∧ (ct ≠ "None" → containsStr (quick_script_prompt idea sname len hf mi ex xp av em ct kn)
        ("\nCTA: " ++ ct) = true))
  ∧ quick_script_prompt idea sname len hf "" "" "" "" "Auto" "None" kn
      = quick_script_base idea sname len hf kn ++ quickScriptRequirements
  ∧ (∀ b₁ b₂ b₃ b₄ b₅ b₆ : Bool,
      (containsStr (quick_script_prompt "X" "Problem-Solver" "8 min" "Auto-select"
          (if b₁ then "point one" else "") (if b₂ then "Poundbury" else "")
          (if b₃ then "Leon Krier" else "") (if b₄ then "politics" else "")
          (if b₅ then "Hope" else "Auto") (if b₆ then "Subscribe" else "None")
          (get_active_knowledge [] [] true)) "\nMUST INCLUDE:\n" = b₁)
      ∧ (containsStr (quick_script_prompt "X" "Problem-Solver" "8 min" "Auto-select"
          (if b₁ then "point one" else "") (if b₂ then "Poundbury" else "")
          (if b₃ then "Leon Krier" else "") (if b₄ then "politics" else "")
          (if b₅ then "Hope" else "Auto") (if b₆ then "Subscribe" else "None")
          (get_active_knowledge [] [] true)) "\nFEATURE PROJECTS: " = b₂)
      ∧ (containsStr (quick_script_prompt "X" "Problem-Solver" "8 min" "Auto-select"
          (if b₁ then "point one" else "") (if b₂ then "Poundbury" else "")
          (if b₃ then "Leon Krier" else "") (if b₄ then "politics" else "")
          (if b₅ then "Hope" else "Auto") (if b₆ then "Subscribe" else "None")
          (get_active_knowledge [] [] true)) "\nREFERENCE EXPERTS: " = b₃)
      ∧ (containsStr (quick_script_prompt "X" "Problem-Solver" "8 min" "Auto-select"
          (if b₁ then "point one" else "") (if b₂ then "Poundbury" else "")
          (if b₃ then "Leon Krier" else "") (if b₄ then "politics" else "")
          (if b₅ then "Hope" else "Auto") (if b₆ then "Subscribe" else "None")
          (get_active_knowledge [] [] true)) "\nAVOID: " = b₄)
      ∧ (containsStr (quick_script_prompt "X" "Problem-Solver" "8 min" "Auto-select"
          (if b₁ then "point one" else "") (if b₂ then "Poundbury" else "")
          (if b₃ then "Leon Krier" else "") (if b₄ then "politics" else "")
          (if b₅ then "Hope" else "Auto") (if b₆ then "Subscribe" else "None")
          (get_active_knowledge [] [] true)) "\nTARGET EMOTION: " = b₅)
      ∧ (containsStr (quick_script_prompt "X" "Problem-Solver" "8 min" "Auto-select"
          (if b₁ then "point one" else "") (if b₂ then "Poundbury" else "")
          (if b₃ then "Leon Krier" else "") (if b₄ then "politics" else "")
          (if b₅ then "Hope" else "Auto") (if b₆ then "Subscribe" else "None")
          (get_active_knowledge [] [] true)) "\nCTA: " = b₆))
  ∧ (containsStr (quick_script_prompt "X" "Problem-Solver" "8 min" "Auto-select"
        "" "" "" "" "Auto" "None" (get_active_knowledge [] [] true)) "X" = true
      ∧ containsStr (quick_script_prompt "X" "Problem-Solver" "8 min" "Auto-select"
        "" "" "" "" "Auto" "None" (get_active_knowledge [] [] true))
        (structureBeats "Problem-Solver") = true) := by
  refine ⟨⟨?_, ?_, ?_, ?_, ?_, ?_⟩, ?_,
    fun b₁ b₂ b₃ b₄ b₅ b₆ =>
      ⟨c4_combo_must_include b₁ b₂ b₃ b₄ b₅ b₆,
       c4_combo_feature_projects b₁ b₂ b₃ b₄ b₅ b₆,
       c4_combo_reference_experts b₁ b₂ b₃ b₄ b₅ b₆,
       c4_combo_avoid_topics b₁ b₂ b₃ b₄ b₅ b₆,
       c4_combo_target_emotion b₁ b₂ b₃ b₄ b₅ b₆,
       c4_combo_cta_line b₁ b₂ b₃ b₄ b₅ b₆⟩,
    by decide⟩
  · intro h
    rw [quick_script_prompt, if_pos h]
    exact containsStr_mono_right _ _ _ (containsStr_mono_right _ _ _
      (containsStr_mono_right _ _ _ (containsStr_mono_right _ _ _
        (containsStr_mono_right _ _ _ (containsStr_mono_right _ _ _
          (containsStr_mono_left _ _ _ (containsStr_refl _)))))))
  · intro h
    rw [quick_script_prompt, if_pos h]
    exact containsStr_mono_right _ _ _ (containsStr_mono_right _ _ _
      (containsStr_mono_right _ _ _ (containsStr_mono_right _ _ _
        (containsStr_mono_right _ _ _
          (containsStr_mono_left _ _ _ (containsStr_refl _))))))
  · intro h
    rw [quick_script_prompt, if_pos h]
    exact containsStr_mono_right _ _ _ (containsStr_mono_right _ _ _
      (containsStr_mono_right _ _ _ (containsStr_mono_right _ _ _
        (containsStr_mono_left _ _ _ (containsStr_refl _)))))
  · intro h
    rw [quick_script_prompt, if_pos h]
    exact containsStr_mono_right _ _ _ (containsStr_mono_right _ _ _
      (containsStr_mono_right _ _ _
        (containsStr_mono_left _ _ _ (containsStr_refl _))))
  · intro h
    rw [quick_script_prompt, if_pos h]
    exact containsStr_mono_right _ _ _ (containsStr_mono_right _ _ _
      (containsStr_mono_left _ _ _ (containsStr_refl _)))
  · intro h
    rw [quick_script_prompt, if_pos h]
    exact containsStr_mono_right _ _ _
      (containsStr_mono_left _ _ _ (containsStr_refl _))
  · rw [quick_script_prompt,
      if_neg (show ¬(("" : String) ≠ "") by decide),
      if_neg (show ¬(("" : String) ≠ "") by decide),
      if_neg (show ¬(("" : String) ≠ "") by decide),
      if_neg (show ¬(("" : String) ≠ "") by decide),
      if_neg (show ¬(("Auto" : String) ≠ "Auto") by decide),
      if_neg (show ¬(("None" : String) ≠ "None") by decide),
      sapp_nil, sapp_nil, sapp_nil, sapp_nil, sapp_nil, sapp_nil]

/-- C4 witness: a non-empty must-include field at concrete inputs. -/
theorem c4_witness :
    containsStr
      (quick_script_prompt "X" "Problem-Solver" "8 min" "Auto-select"
        "point one" "" "" "" "Auto" "None" "")
      ("\nMUST INCLUDE:\npoint one") = true :=
  ((c4_optional_fields "X" "Problem-Solver" "8 min" "Auto-select"
      "point one" "" "" "" "Auto" "None" "").1).1 (by decide)

theorem catMap_dynIf_of_inactive (l : List DynSource) (p : DynSource → Bool)
    (h : ∀ r ∈ l, p r = false → dynIfBlock r = "") :
    catMap dynIfBlock l = catMap dynIfBlock (l.filter p) := by
  induction l with
  | nil => rfl
  | cons r rs ih =>
    have ih' := ih (fun r hr => h r (List.mem_cons_of_mem _ hr))
    cases hp : p r with
    | true =>
      simp only [List.filter, hp, catMap]
      rw [ih']
    | false =>
      simp only [List.filter, hp, catMap]
      rw [h r (List.mem_cons_self _ _) hp, nil_sapp, ih']

theorem catMap_dynIf_update (db : List DynSource) (sid : Nat) :
    catMap dynIfBlock (update_source_in_db_ok db sid false)
      = catMap dynIfBlock ((update_source_in_db_ok db sid false).filter
          (fun r => !(r.id == some sid))) := by
  refine catMap_dynIf_of_inactive _ _ (fun r hr hp => ?_)
  simp only [update_source_in_db_ok, List.mem_map] at hr
  obtain ⟨r₀, hr₀, rfl⟩ := hr
  cases h0 : (r₀.id == some sid) with
  | true => rfl
  | false => simp [h0] at hp

/-- C6 counterexample: source A is toggled off (the remote update succeeds
and sets its row inactive), yet its extracted-advice text still occurs in
the next aggregation output, because source B carries the same advice. -/
theorem c6_counterexample :
    containsStr
      (get_active_knowledge builtinKeys
        (toggle_custom_ok
          [ { name := "A", url := "ua", extracted_advice := some "SHARED ADVICE",
              active := some true, id := some 1 },
            { name := "B", url := "ub", extracted_advice := some "SHARED ADVICE",
              active := some true, id := some 2 } ]
          { name := "A", url := "ua", extracted_advice := some "SHARED ADVICE",
            active := some true, id := some 1 })
        false)
      "SHARED ADVICE" = true := by decide

/-- C6 (amended): toggling an active dynamic record off, with the remote
update succeeding, removes that record's contribution from the next
aggregation call: the output equals the aggregation over the reloaded store
with every row of that id dropped (so its advice disappears unless another
active record contains the same text, see the counterexample). -/
theorem c6_toggle_off_removes (db : List DynSource) (src : DynSource) (sid : Nat)
    (full : Bool) (hid : src.id = some sid) (hact : src.active.getD true = true) :
    get_active_knowledge builtinKeys (toggle_custom_ok db src) full
      = get_active_knowledge builtinKeys
          ((toggle_custom_ok db src).filter (fun r => !(r.id == some sid))) full := by
  simp only [toggle_custom_ok, hid, hact, Bool.not_true]
  rw [get_active_knowledge, get_active_knowledge, get_active_knowledge_gen_eq,
    get_active_knowledge_gen_eq, catMap_dynIf_update]

/-- C6 witness: the amended theorem at a one-row store. -/
theorem c6_witness :
    get_active_knowledge builtinKeys
        (toggle_custom_ok
          [ { name := "A", url := "u", extracted_advice := some "x",
              active := some true, id := some 5 } ]
          { name := "A", url := "u", extracted_advice := some "x",
            active := some true, id := some 5 })
        false
      = get_active_knowledge builtinKeys
          ((toggle_custom_ok
            [ { name := "A", url := "u", extracted_advice := some "x",
                active := some true, id := some 5 } ]
            { name := "A", url := "u", extracted_advice := some "x",
              active := some true, id := some 5 }).filter
            (fun r => !(r.id == some 5)))
          false :=
  c6_toggle_off_removes
    [ { name := "A", url := "u", extracted_advice := some "x",
        active := some true, id := some 5 } ]
    { name := "A", url := "u", extracted_advice := some "x",
      active := some true, id := some 5 }
    5 false rfl rfl

/-- C9: a dynamic record whose active key is absent is treated as active at
the public interface — its advice is contained in the aggregation output,
and it adds one to the sidebar's active custom source count wherever it
stands in the list. -/
theorem c9_missing_active_is_active (registry : List (String × BuiltinRecord))
    (ab : List String) (srcs : List DynSource) (full : Bool) (s : DynSource)
    (hmem : s ∈ srcs) (hnone : s.active = none) :
    containsStr (get_active_knowledge_gen registry ab srcs full)
      (s.extracted_advice.getD "") = true
  ∧ ∀ (pre post : List DynSource) (t : DynSource), t.active = none →
      custom_sources_active_count (pre ++ t :: post)
        = custom_sources_active_count (pre ++ post) + 1 := by
  constructor
  · exact dyn_contains registry ab srcs full s hmem (by rw [hnone]; rfl)
  · intro pre post t ht
    simp [custom_sources_active_count, List.filter_append, List.filter, ht]
    omega

/-- C9 witness: a record with no active key, contained and counted. -/
theorem c9_witness :
    containsStr
      (get_active_knowledge_gen [] []
        [ { name := "D", url := "u", extracted_advice := some "hint", active := none } ]
        false)
      "hint" = true
  ∧ custom_sources_active_count
      ([] ++ { name := "D", url := "u", extracted_advice := some "hint",
               active := none } :: [])
      = custom_sources_active_count ([] ++ []) + 1 := by
  have h := c9_missing_active_is_active [] []
    [ { name := "D", url := "u", extracted_advice := some "hint", active := none } ]
    false
    { name := "D", url := "u", extracted_advice := some "hint", active := none }
    (by decide) rfl
  exact ⟨h.1, h.2 [] []
    { name := "D", url := "u", extracted_advice := some "hint", active := none } rfl⟩

/-- C10: a successful reload resets the active built-in set to all registry
keys: a built-in deactivated in the session is active again after the
reload, and a session set that differs from the full key list is never left
unchanged. -/
theorem c10_reload_resets_builtin_set (st : KnowledgeState) (rows : List DynSource) :
    (reload_sources st (some rows)).active_builtin = builtinKeys
  ∧ (∀ k, k ∈ builtinKeys → k ∉ st.active_builtin →
      k ∈ (reload_sources st (some rows)).active_builtin)
  ∧ (st.active_builtin ≠ builtinKeys →
      (reload_sources st (some rows)).active_builtin ≠ st.active_builtin) := by
  have hres : (reload_sources st (some rows)).active_builtin = builtinKeys := rfl
  refine ⟨hres, fun k hk _ => hres ▸ hk, fun hne => ?_⟩
  rw [hres]
  exact fun hcontra => hne hcontra.symm

/-- C10 witness: a session with only the voice record active; the playbook is
active again after the reload. -/
theorem c10_witness :
    (reload_sources
        { knowledge_loaded := true, knowledge_sources := [],
          active_builtin := ["ruben_voice"] } (some [])).active_builtin = builtinKeys
  ∧ "viral_playbook" ∈ (reload_sources
        { knowledge_loaded := true, knowledge_sources := [],
          active_builtin := ["ruben_voice"] } (some [])).active_builtin := by
  have h := c10_reload_resets_builtin_set
    { knowledge_loaded := true, knowledge_sources := [], active_builtin := ["ruben_voice"] }
    []
  exact ⟨h.1, h.2.1 "viral_playbook" (by decide) (by decide)⟩

theorem mem_esc_ne (s : List Char) (x : Char) (hx : x ∈ esc s) :
    x ≠ '\n' ∧ x ≠ '\t' := by
  induction s with
  | nil => simp [esc] at hx
  | cons c cs ih =>
    by_cases h1 : c = '\\'
    · rw [esc, if_pos h1] at hx
      simp only [List.mem_cons] at hx
      rcases hx with rfl | rfl | hx
      · exact ⟨by decide, by decide⟩
      · exact ⟨by decide, by decide⟩
      · exact ih hx
    · by_cases h2 : c = '\n'
      · rw [esc, if_neg h1, if_pos h2] at hx
        simp only [List.mem_cons] at hx
        rcases hx with rfl | rfl | hx
        · exact ⟨by decide, by decide⟩
        · exact ⟨by decide, by decide⟩
        · exact ih hx
      · by_cases h3 : c = '\t'
        · rw [esc, if_neg h1, if_neg h2, if_pos h3] at hx
          simp only [List.mem_cons] at hx
          rcases hx with rfl | rfl | hx
          · exact ⟨by decide, by decide⟩
          · exact ⟨by decide, by decide⟩
          · exact ih hx
        · rw [esc, if_neg h1, if_neg h2, if_neg h3] at hx
          simp only [List.mem_cons] at hx
          rcases hx with rfl | hx
          · exact ⟨h2, h3⟩
          · exact ih hx

theorem esc_eq_nil_iff (l : List Char) : esc l = [] ↔ l = [] := by
  cases l with
  | nil => simp [esc]
  | cons c cs =>
    constructor
    · intro h
      simp only [esc] at h
      split at h
      · simp at h
      · split at h
        · simp at h
        · split at h
          · simp at h
          · simp at h
    · intro h
      simp at h

theorem unesc_esc (s : List Char) : unesc (esc s) = s := by
  induction s with
  | nil => rfl
  | cons c cs ih =>
    by_cases h1 : c = '\\'
    · subst h1
      rw [esc, if_pos rfl]
      show '\\' :: unesc (esc cs) = '\\' :: cs
      rw [ih]
    · by_cases h2 : c = '\n'
      · subst h2
        rw [esc, if_neg h1, if_pos rfl]
        show '\n' :: unesc (esc cs) = '\n' :: cs
        rw [ih]
      · by_cases h3 : c = '\t'
        · subst h3
          rw [esc, if_neg h1, if_neg h2, if_pos rfl]
          show '\t' :: unesc (esc cs) = '\t' :: cs
          rw [ih]
        · rw [esc, if_neg h1, if_neg h2, if_neg h3]
          cases hcs : esc cs with
          | nil =>
            rw [(esc_eq_nil_iff cs).mp hcs]
            rfl
          | cons d ds =>
            simp only [unesc, if_neg h1]
            rw [← hcs, ih]

theorem splitOnChar_ne_nil (c : Char) (l : List Char) : splitOnChar c l ≠ [] := by
  cases l with
  | nil => simp [splitOnChar]
  | cons x xs =>
    simp only [splitOnChar]
    split
    · split <;> simp
    · split <;> simp

theorem splitOnChar_not_mem (c : Char) (p : List Char) (h : c ∉ p) :
    splitOnChar c p = [p] := by
  induction p with
  | nil => rfl
  | cons x xs ih =>
    have hx : ¬x = c := fun hc => h (hc ▸ List.mem_cons_self x xs)
    have hxs : c ∉ xs := fun hc => h (List.mem_cons_of_mem x hc)
    simp only [splitOnChar, ih hxs]
    rw [if_neg hx]

theorem splitOnChar_sep (c : Char) (p rest : List Char) (h : c ∉ p) :
    splitOnChar c (p ++ c :: rest) = p :: splitOnChar c rest := by
  induction p with
  | nil =>
    simp only [List.nil_append, splitOnChar]
    cases hs : splitOnChar c rest with
    | nil => exact absurd hs (splitOnChar_ne_nil c rest)
    | cons a as => simp
  | cons x xs ih =>
    have hx : ¬x = c := fun hc => h (hc ▸ List.mem_cons_self x xs)
    have hxs : c ∉ xs := fun hc => h (List.mem_cons_of_mem x hc)
    simp only [List.cons_append, splitOnChar, List.append_eq, ih hxs]
    rw [if_neg hx]

theorem split_join (c : Char) (ps : List (List Char)) (hne : ps ≠ [])
    (h : ∀ p ∈ ps, c ∉ p) : splitOnChar c (joinChar c ps) = ps := by
  induction ps with
  | nil => exact absurd rfl hne
  | cons p qs ih =>
    cases qs with
    | nil =>
      show splitOnChar c p = [p]
      exact splitOnChar_not_mem c p (h p (List.mem_cons_self _ _))
    | cons q rs =>
      show splitOnChar c (p ++ c :: joinChar c (q :: rs)) = p :: q :: rs
      rw [splitOnChar_sep c p _ (h p (List.mem_cons_self _ _))]
      rw [ih (by simp) (fun r hr => h r (List.mem_cons_of_mem _ hr))]

theorem tab_not_mem_exportLine_parts (s : DynSource) :
    ('\t' ∉ esc s.name.data) ∧ ('\t' ∉ esc s.url.data)
    ∧ ('\t' ∉ esc (s.extracted_advice.getD "").data)
    ∧ ('\t' ∉ (if s.active.getD true then "true" else "false").data) := by
  refine ⟨fun h => ((mem_esc_ne _ _ h).2 rfl), fun h => ((mem_esc_ne _ _ h).2 rfl),
    fun h => ((mem_esc_ne _ _ h).2 rfl), ?_⟩
  cases s.active.getD true <;> decide

theorem nl_not_mem_exportLine (s : DynSource) : '\n' ∉ exportLine s := by
  intro h
  rw [exportLine] at h
  show False
  have expand : joinChar '\t'
      [esc s.name.data, esc s.url.data, esc (s.extracted_advice.getD "").data,
       (if s.active.getD true then "true" else "false").data]
      = esc s.name.data ++ '\t' :: (esc s.url.data ++ '\t' ::
          (esc (s.extracted_advice.getD "").data ++ '\t' ::
            (if s.active.getD true then "true" else "false").data)) := rfl
  rw [expand] at h
  simp only [List.mem_append, List.mem_cons] at h
  rcases h with h | h | h | h | h | h | h
  · exact (mem_esc_ne _ _ h).1 rfl
  · exact absurd h (by decide)
  · exact (mem_esc_ne _ _ h).1 rfl
  · exact absurd h (by decide)
  · exact (mem_esc_ne _ _ h).1 rfl
  · exact absurd h (by decide)
  · revert h
    cases s.active.getD true <;> decide

theorem exportLine_ne_nil (s : DynSource) : exportLine s ≠ [] := by
  rw [exportLine]
  show esc s.name.data ++ '\t' :: _ ≠ []
  simp

theorem parseLine_exportLine (s : DynSource) :
    parseLine (exportLine s)
      = some { name := s.name, url := s.url,
               extracted_advice := some (s.extracted_advice.getD ""),
               active := some (s.active.getD true),
               transcript_words := none, id := none } := by
  have hparts := tab_not_mem_exportLine_parts s
  have hsplit : splitOnChar '\t' (exportLine s)
      = [esc s.name.data, esc s.url.data, esc (s.extracted_advice.getD "").data,
         (if s.active.getD true then "true" else "false").data] := by
    rw [exportLine]
    refine split_join '\t' _ (by simp) ?_
    intro p hp
    simp only [List.mem_cons, List.not_mem_nil, or_false] at hp
    rcases hp with rfl | rfl | rfl | rfl
    · exact hparts.1
    · exact hparts.2.1
    · exact hparts.2.2.1
    · exact hparts.2.2.2
  rw [parseLine, hsplit]
  cases hact : s.active.getD true with
  | true =>
    rw [if_pos (by rfl)]
    simp only [unesc_esc]
    congr 1
  | false =>
    simp [unesc_esc]

theorem joinChar_lines_ne_nil (s : DynSource) (ss : List DynSource) :
    joinChar '\n' ((s :: ss).map exportLine) ≠ [] := by
  cases ss with
  | nil => exact exportLine_ne_nil s
  | cons t ts =>
    show exportLine s ++ '\n' :: joinChar '\n' ((t :: ts).map exportLine) ≠ []
    simp

theorem parseLines_map (l : List DynSource) :
    parseLines (l.map exportLine)
      = some (l.map (fun s => ({ name := s.name, url := s.url,
                                 extracted_advice := some (s.extracted_advice.getD ""),
                                 active := some (s.active.getD true),
                                 transcript_words := none, id := none } : DynSource))) := by
  induction l with
  | nil => rfl
  | cons s ss ih => simp [parseLines, parseLine_exportLine, ih]

/-- C8 (spec-modelled): exporting the dynamic knowledge store to the
structured document format and re-importing it yields a store with the same
list of {name, origin, extracted_advice, active} tuples; remote ids are not
round-tripped (the import leaves them to be assigned fresh). -/
theorem c8_export_import_roundtrip (l : List DynSource) :
    ∃ l', import_sources (export_sources l) = some l'
      ∧ l'.map sourceTuple = l.map sourceTuple := by
  refine ⟨l.map (fun s => { name := s.name, url := s.url,
                            extracted_advice := some (s.extracted_advice.getD ""),
                            active := some (s.active.getD true),
                            transcript_words := none, id := none }),
    ?_, ?_⟩
  · cases l with
    | nil => rfl
    | cons s ss =>
      rw [import_sources, export_sources]
      rw [if_neg (joinChar_lines_ne_nil s ss)]
      rw [split_join '\n' _ (by simp)
          (fun p hp => by
            simp only [List.mem_map] at hp
            obtain ⟨r, _, rfl⟩ := hp
            exact nl_not_mem_exportLine r)]
      exact parseLines_map (s :: ss)
  · simp [sourceTuple]
